import Mathlib

/-!
Shallow embedding of the trade-bridge multi-broker order provider
(Dhan, Upstox and Zerodha adapter classes plus the OrderProvider facade).

Pure fragments of the JavaScript source are translated into executable
Lean definitions; the effectful boundaries (the HTTP transport, the LTP
quote endpoint, the per-order cancel call, the file system around the
instrument cache) are abstracted as explicit oracle parameters, so that
every claim about the adapters' logic becomes a statement about total
functions.  JavaScript truthiness of optional numeric and string
parameters is modelled explicitly, since several guards in the source
test truthiness rather than presence.
-/

namespace TradeBridge

/-- Truthiness of an optional JS number: `undefined` and `0` are falsy. -/
def jsTruthyNum (v : Option ℚ) : Bool :=
  match v with
  | none => false
  | some q => !(q == 0)

/-- Truthiness of an optional JS string: `undefined` and `""` are falsy. -/
def jsTruthyStr (v : Option String) : Bool :=
  match v with
  | none => false
  | some s => !(s == "")

/-- JS `x || d` on an optional string: the default replaces a falsy value. -/
def jsStrOr (v : Option String) (d : String) : String :=
  match v with
  | none => d
  | some s => if s == "" then d else s

/-- JS `x || d` on an optional number: the default replaces `undefined` and `0`. -/
def jsNumOr (v : Option ℚ) (d : ℚ) : ℚ :=
  match v with
  | none => d
  | some q => if q == 0 then d else q

/-- JS `String.prototype.toUpperCase` on ASCII data, modelled structurally
over the character list so that it evaluates by kernel reduction. -/
def jsToUpper (s : String) : String := ⟨s.data.map Char.toUpper⟩

/-- JS `String.prototype.toLowerCase` on ASCII data. -/
def jsToLower (s : String) : String := ⟨s.data.map Char.toLower⟩

/-- JS `Math.round`: nearest integer, ties toward positive infinity. -/
def jsRound (q : ℚ) : ℤ := ⌊q + 1/2⌋

/-- The rounding step `Math.round(p * 100) / 100` shared by the limit and
stop-loss exit computations of all three adapters. -/
def round2 (q : ℚ) : ℚ := ((jsRound (q * 100) : ℤ) : ℚ) / 100

/-- Lookup key of `getInstrumentDetails`: JS dispatches on `typeof`. -/
inductive JsKey where
  | str (s : String)
  | num (n : Int)
deriving DecidableEq

/-- Instrument record of the Dhan catalog. -/
structure DhanInstr where
  tradingSymbol : String
  securityId : String
  exchangeToken : Int
  exchange : String
deriving DecidableEq

/-- Instrument record of the Zerodha catalog. -/
structure ZInstr where
  tradingsymbol : String
  instrument_token : Int
  exchange : String
deriving DecidableEq

/-- Instrument record of the Upstox catalog. -/
structure UInstr where
  tradingsymbol : String
  instrument_token : String
  instrument_key : String
  exchange : String
deriving DecidableEq

/-- `DhanClient.getInstrumentDetails`: throws when the cache is not loaded,
otherwise linear `find` matching exact symbol, case-insensitive symbol or
security id for string keys, and exchange token for numeric keys. -/
def dhanGetInstrumentDetails (cache : Option (List DhanInstr)) (key : JsKey) :
    Except String (Option DhanInstr) :=
  match cache with
  | none => .error "Instruments cache not loaded"
  | some instruments =>
    .ok (instruments.find? fun instrument =>
      match key with
      | .str s =>
          (instrument.tradingSymbol == s) ||
          (jsToUpper instrument.tradingSymbol == jsToUpper s) ||
          (instrument.securityId == s)
      | .num n => instrument.exchangeToken == n)

/-- `ZerodhaClient.getInstrumentDetails`: string keys match only the exact
trading symbol; numeric keys match the instrument token. -/
def zerodhaGetInstrumentDetails (cache : Option (List ZInstr)) (key : JsKey) :
    Except String (Option ZInstr) :=
  match cache with
  | none => .error "Instruments cache not loaded"
  | some instruments =>
    .ok (instruments.find? fun instrument =>
      match key with
      | .str s => instrument.tradingsymbol == s
      | .num n => instrument.instrument_token == n)

/-- `UpstoxClient.getInstrumentDetails`: strict equality against trading
symbol, instrument token or instrument key. -/
def upstoxGetInstrumentDetails (cache : Option (List UInstr)) (key : String) :
    Except String (Option UInstr) :=
  match cache with
  | none => .error "Instruments cache not loaded"
  | some instruments =>
    .ok (instruments.find? fun instrument =>
      (instrument.tradingsymbol == key) ||
      (instrument.instrument_token == key) ||
      (instrument.instrument_key == key))

/-- A value read from a JS object literal used as a dictionary: either a
string bound by an own property, a member inherited from
`Object.prototype` when the key names one (a function, or the prototype
object itself for the `__proto__` accessor — always truthy), or
`undefined` when neither exists. -/
inductive JsValue where
  | jsUndefined : JsValue
  | str : String → JsValue
  | protoFn : String → JsValue
deriving DecidableEq

/-- The property names every plain JS object inherits from
`Object.prototype`, reachable through `obj[key]` even though the object
literal does not declare them. -/
def objectProtoKeys : List String :=
  ["constructor", "hasOwnProperty", "isPrototypeOf", "propertyIsEnumerable",
   "toLocaleString", "toString", "valueOf", "__proto__", "__defineGetter__",
   "__defineSetter__", "__lookupGetter__", "__lookupSetter__"]

/-- JS property read `obj[key]` on an object literal with string-valued own
properties: an own property wins, otherwise the lookup continues up the
prototype chain to `Object.prototype`, and only a key absent from both
yields `undefined`. -/
def jsObjectGet (own : List (String × String)) (key : String) : JsValue :=
  match own.lookup key with
  | some v => .str v
  | none => if key ∈ objectProtoKeys then .protoFn key else .jsUndefined

/-- JS truthiness of such a value: `undefined` and the empty string are
falsy; a nonempty string and any inherited prototype member are truthy. -/
def jsValueTruthy : JsValue → Bool
  | .jsUndefined => false
  | .str s => !(s == "")
  | .protoFn _ => true

/-- JS `v || d` on a dictionary read: the default replaces only a falsy
read, so an inherited prototype member survives. -/
def jsValueOr (v : JsValue) (d : String) : JsValue :=
  if jsValueTruthy v then v else .str d

/-- The object literal `productMap` of `DhanClient._mapProduct`. -/
def dhanProductMap : List (String × String) :=
  [("INTRADAY", "INTRADAY"), ("DELIVERY", "DELIVERY"), ("MARGIN", "MARGIN"),
   ("NORMAL", "NORMAL"), ("MIS", "INTRADAY"), ("CNC", "DELIVERY"),
   ("NRML", "NORMAL")]

/-- `DhanClient._mapProduct`: `productMap[product] || "INTRADAY"` — an own
key maps to its value, an `Object.prototype` key to the truthy inherited
member, anything else to the default. -/
def dhanMapProduct (product : String) : JsValue :=
  jsValueOr (jsObjectGet dhanProductMap product) "INTRADAY"

/-- The object literal `orderTypeMap` of `DhanClient._mapOrderType`. -/
def dhanOrderTypeMap : List (String × String) :=
  [("MARKET", "MARKET"), ("LIMIT", "LIMIT"), ("SL", "SL"), ("SL-M", "SLM")]

/-- `DhanClient._mapOrderType`: `orderTypeMap[orderType] || "MARKET"` with
the same prototype-chain behaviour. -/
def dhanMapOrderType (orderType : String) : JsValue :=
  jsValueOr (jsObjectGet dhanOrderTypeMap orderType) "MARKET"

/-- The object literal `productMap` of `ZerodhaClient._mapProduct`. -/
def zerodhaProductMap : List (String × String) :=
  [("INTRADAY", "MIS"), ("DELIVERY", "CNC"), ("NORMAL", "NRML"),
   ("MIS", "MIS"), ("CNC", "CNC"), ("NRML", "NRML")]

/-- `ZerodhaClient._mapProduct`: `productMap[product] || "MIS"` with the
same prototype-chain behaviour. -/
def zerodhaMapProduct (product : String) : JsValue :=
  jsValueOr (jsObjectGet zerodhaProductMap product) "MIS"

/-- The object literal `orderTypeMap` of `ZerodhaClient._mapOrderType`. -/
def zerodhaOrderTypeMap : List (String × String) :=
  [("MARKET", "MARKET"), ("LIMIT", "LIMIT"), ("SL", "SL"), ("SL-M", "SL-M")]

/-- `ZerodhaClient._mapOrderType`: `orderTypeMap[orderType] || "MARKET"`
with the same prototype-chain behaviour. -/
def zerodhaMapOrderType (orderType : String) : JsValue :=
  jsValueOr (jsObjectGet zerodhaOrderTypeMap orderType) "MARKET"

/-- The broker-agnostic `params` object accepted by every `placeOrder` and
built by the exit helpers.  Optional fields model JS `undefined`. -/
structure OrderParams where
  symbolName : Option String := none
  securityId : Option String := none
  exchange : Option String := none
  transactionType : String := ""
  orderType : String := ""
  quantity : Int := 0
  price : Option ℚ := none
  triggerPrice : Option ℚ := none
  validity : Option String := none
  variety : Option String := none
  product : Option String := none
deriving DecidableEq

/-- The request body posted to `/orders` by `DhanClient.placeOrder`.
An `Option` field set to `none` means the key is absent from the body. -/
structure DhanOrderRequest where
  securityId : String
  exchange : Option String
  quantity : Int
  product : JsValue
  validity : String
  orderType : JsValue
  transactionType : String
  disclosedQuantity : Int
  source : String
  price : Option ℚ
  triggerPrice : Option ℚ
deriving DecidableEq

/-- The request body posted to `/order/place` by `UpstoxClient.placeOrder`. -/
structure UOrderRequest where
  instrument_token : String
  exchange : String
  transaction_type : String
  order_type : String
  quantity : Int
  product : String
  validity : String
  price : Option ℚ
  trigger_price : Option ℚ
deriving DecidableEq

/-- The request object passed to `kiteConnect.placeOrder` by
`ZerodhaClient.placeOrder`. -/
structure ZOrderRequest where
  exchange : String
  tradingsymbol : String
  transaction_type : String
  quantity : Int
  product : JsValue
  order_type : JsValue
  validity : String
  variety : String
  price : Option ℚ
  trigger_price : Option ℚ
deriving DecidableEq

/-- `DhanClient.placeOrder` up to the HTTP post: resolves the security id
via the catalog when the explicit one is falsy, then builds the Dhan
request body.  The price guard tests the raw order type, the trigger
guard tests the mapped order type, and both test truthiness of the
supplied value. -/
def dhanPlaceOrder (cache : Option (List DhanInstr)) (params : OrderParams) :
    Except String DhanOrderRequest :=
  let build : String → Option String → DhanOrderRequest := fun sid exch =>
    { securityId := sid
      exchange := exch
      quantity := params.quantity
      product := dhanMapProduct (jsStrOr params.product "INTRADAY")
      validity := jsStrOr (params.validity.map jsToUpper) "DAY"
      orderType := dhanMapOrderType params.orderType
      transactionType := params.transactionType
      disclosedQuantity := 0
      source := "API"
      price :=
        if ((params.orderType == "LIMIT") || (params.orderType == "SL")) &&
            jsTruthyNum params.price then params.price else none
      triggerPrice :=
        if ((dhanMapOrderType params.orderType == JsValue.str "SL") ||
            (dhanMapOrderType params.orderType == JsValue.str "SLM")) &&
            jsTruthyNum params.triggerPrice then params.triggerPrice else none }
  if jsTruthyStr params.securityId then
    .ok (build (params.securityId.getD "") params.exchange)
  else
    match dhanGetInstrumentDetails cache (.str (params.symbolName.getD "")) with
    | .error e => .error e
    | .ok none => .error ("Instrument not found: " ++ params.symbolName.getD "")
    | .ok (some instrument) => .ok (build instrument.securityId (some instrument.exchange))

/-- `UpstoxClient.placeOrder` up to the HTTP post: always resolves the
symbol via the catalog; the price guard accepts only `LIMIT`. -/
def upstoxPlaceOrder (cache : Option (List UInstr)) (params : OrderParams) :
    Except String UOrderRequest :=
  match upstoxGetInstrumentDetails cache (params.symbolName.getD "") with
  | .error e => .error e
  | .ok none => .error ("Instrument not found: " ++ params.symbolName.getD "")
  | .ok (some instrument) =>
    .ok { instrument_token := instrument.instrument_token
          exchange := jsStrOr params.exchange instrument.exchange
          transaction_type := params.transactionType
          order_type := params.orderType
          quantity := params.quantity
          product := jsStrOr params.product "INTRADAY"
          validity := jsStrOr params.validity "DAY"
          price :=
            if (params.orderType == "LIMIT") && jsTruthyNum params.price then
              params.price else none
          trigger_price :=
            if ((params.orderType == "SL") || (params.orderType == "SL-M")) &&
                jsTruthyNum params.triggerPrice then params.triggerPrice else none }

/-- `ZerodhaClient.placeOrder` up to the SDK call: resolves exchange and
symbol via the catalog when either is falsy, then builds the Kite request. -/
def zerodhaPlaceOrder (cache : Option (List ZInstr)) (params : OrderParams) :
    Except String ZOrderRequest :=
  let step : Except String (String × String) :=
    if jsTruthyStr params.exchange && jsTruthyStr params.symbolName then
      .ok (params.exchange.getD "", params.symbolName.getD "")
    else
      match zerodhaGetInstrumentDetails cache (.str (params.symbolName.getD "")) with
      | .error e => .error e
      | .ok none => .error ("Instrument not found: " ++ params.symbolName.getD "")
      | .ok (some instrument) => .ok (instrument.exchange, instrument.tradingsymbol)
  step.map fun resolved =>
    { exchange := resolved.1
      tradingsymbol := resolved.2
      transaction_type := params.transactionType
      quantity := params.quantity
      product := zerodhaMapProduct (jsStrOr params.product "INTRADAY")
      order_type := zerodhaMapOrderType params.orderType
      validity := jsStrOr (params.validity.map jsToLower) "day"
      variety := jsStrOr (params.variety.map jsToLower) "regular"
      price :=
        if ((params.orderType == "LIMIT") || (params.orderType == "SL")) &&
            jsTruthyNum params.price then params.price else none
      trigger_price :=
        if ((params.orderType == "SL") || (params.orderType == "SL-M")) &&
            jsTruthyNum params.triggerPrice then params.triggerPrice else none }

/-- A position as reported by the Dhan positions endpoint. -/
structure DhanPosition where
  securityId : String
  exchange : String
  quantity : Int
  product : String
deriving DecidableEq

/-- A net position as reported by the Kite SDK for Zerodha. -/
structure ZPosition where
  tradingsymbol : String
  exchange : String
  quantity : Int
  product : String
deriving DecidableEq

/-- One element of the array produced by the `map` callback inside the bulk
operations: in JS it is either the literal `null` or a `Promise`.  A
`Promise` object is always truthy, whatever it later resolves to. -/
inductive PendingItem (α : Type) where
  | nullItem : PendingItem α
  | promiseItem : α → PendingItem α
deriving DecidableEq

/-- JS truthiness of a `map` callback result: `null` is falsy, a `Promise`
object is truthy. -/
def pendingTruthy {α : Type} : PendingItem α → Bool
  | .nullItem => false
  | .promiseItem _ => true

/-- `await Promise.all` over the surviving items: resolves every promise. -/
def awaitAll {α : Type} (items : List (PendingItem α)) : List α :=
  items.filterMap fun item =>
    match item with
    | .nullItem => none
    | .promiseItem a => some a

/-- Aggregate returned by the synchronous-map bulk exits. -/
structure BulkReportSync where
  success : Bool
  message : String
  details : List OrderParams
deriving DecidableEq

/-- Aggregate returned by the async-map bulk exits, whose `Promise.all`
resolves each callback promise to either `null` or an order result. -/
structure BulkReportAsync where
  success : Bool
  message : String
  details : List (Option OrderParams)
deriving DecidableEq

/-- The `placeOrder` argument built for one position by the market-exit
callback of `DhanClient.exitAllPositions`. -/
def dhanMarketExitOrder (position : DhanPosition) : OrderParams :=
  { securityId := some position.securityId
    exchange := some position.exchange
    transactionType := if position.quantity > 0 then "SELL" else "BUY"
    orderType := "MARKET"
    quantity := (position.quantity.natAbs : Int)
    product := some position.product }

/-- The `placeOrder` argument built for one position by the market-exit
callback of `ZerodhaClient.exitAllPositions`. -/
def zerodhaMarketExitOrder (position : ZPosition) : OrderParams :=
  { symbolName := some position.tradingsymbol
    exchange := some position.exchange
    transactionType := if position.quantity > 0 then "SELL" else "BUY"
    orderType := "MARKET"
    quantity := (position.quantity.natAbs : Int)
    product := some position.product }

/-- `DhanClient.exitAllPositions`: a synchronous `map` returns `null` for
zero-quantity positions and an order promise otherwise, `filter(Boolean)`
drops the nulls, and `Promise.all` collects the submitted orders. -/
def dhanExitAllPositions (positions : List DhanPosition) : BulkReportSync :=
  let pending : List (PendingItem OrderParams) := positions.map fun position =>
    if position.quantity == 0 then .nullItem
    else .promiseItem (dhanMarketExitOrder position)
  let results := awaitAll (pending.filter pendingTruthy)
  { success := true
    message := "Exited " ++ toString results.length ++ " positions"
    details := results }

/-- `ZerodhaClient.exitAllPositions`, same synchronous-map shape. -/
def zerodhaExitAllPositions (positions : List ZPosition) : BulkReportSync :=
  let pending : List (PendingItem OrderParams) := positions.map fun position =>
    if position.quantity == 0 then .nullItem
    else .promiseItem (zerodhaMarketExitOrder position)
  let results := awaitAll (pending.filter pendingTruthy)
  { success := true
    message := "Exited " ++ toString results.length ++ " positions"
    details := results }

/-- The `placeOrder` argument built for one position by the limit-exit
callback of `DhanClient.exitAllPositionsLimit`: for a SELL exit the limit
price is set ABOVE the last traded price. -/
def dhanLimitExitOrder (ltpOf : String → String → ℚ) (priceOffset : Option ℚ)
    (position : DhanPosition) : OrderParams :=
  let transactionType := if position.quantity > 0 then "SELL" else "BUY"
  let ltp := ltpOf position.exchange position.securityId
  let offset := jsNumOr priceOffset 0
  let limitPrice :=
    if transactionType == "SELL" then ltp * (1 + offset / 100)
    else ltp * (1 - offset / 100)
  { securityId := some position.securityId
    exchange := some position.exchange
    transactionType := transactionType
    orderType := "LIMIT"
    quantity := (position.quantity.natAbs : Int)
    price := some (round2 limitPrice)
    product := some position.product }

/-- The `placeOrder` argument built for one position by the limit-exit
callback of `ZerodhaClient.exitAllPositionsLimit`: for a SELL exit the
limit price is set BELOW the last traded price. -/
def zerodhaLimitExitOrder (ltpOf : String → String → ℚ) (priceOffset : Option ℚ)
    (position : ZPosition) : OrderParams :=
  let transactionType := if position.quantity > 0 then "SELL" else "BUY"
  let ltp := ltpOf position.exchange position.tradingsymbol
  let offset := jsNumOr priceOffset 0
  let limitPrice :=
    if transactionType == "SELL" then ltp * (1 - offset / 100)
    else ltp * (1 + offset / 100)
  { symbolName := some position.tradingsymbol
    exchange := some position.exchange
    transactionType := transactionType
    orderType := "LIMIT"
    quantity := (position.quantity.natAbs : Int)
    price := some (round2 limitPrice)
    product := some position.product }

/-- The `placeOrder` argument built by the stop-loss callback of
`DhanClient.exitAllPositionsAddStopLoss` (order type `"SLM"`). -/
def dhanSLExitOrder (ltpOf : String → String → ℚ) (slPercentage : Option ℚ)
    (position : DhanPosition) : OrderParams :=
  let transactionType := if position.quantity > 0 then "SELL" else "BUY"
  let ltp := ltpOf position.exchange position.securityId
  let pct := jsNumOr slPercentage 1
  let triggerPrice :=
    if transactionType == "SELL" then ltp * (1 - pct / 100)
    else ltp * (1 + pct / 100)
  { securityId := some position.securityId
    exchange := some position.exchange
    transactionType := transactionType
    orderType := "SLM"
    quantity := (position.quantity.natAbs : Int)
    triggerPrice := some (round2 triggerPrice)
    product := some position.product }

/-- `DhanClient.exitAllPositionsLimit`: the `map` callback is `async`, so
every position — including zero-quantity ones — yields a `Promise`, which
is truthy; `filter(Boolean)` therefore removes nothing and `Promise.all`
resolves the skipped positions to `null` entries in the aggregate. -/
def dhanExitAllPositionsLimit (positions : List DhanPosition)
    (ltpOf : String → String → ℚ) (priceOffset : Option ℚ) : BulkReportAsync :=
  let pending : List (PendingItem (Option OrderParams)) := positions.map fun position =>
    .promiseItem (
      if position.quantity == 0 then none
      else some (dhanLimitExitOrder ltpOf priceOffset position))
  let results := awaitAll (pending.filter pendingTruthy)
  { success := true
    message := "Exited " ++ toString results.length ++ " positions with limit orders"
    details := results }

/-- `DhanClient.exitAllPositionsAddStopLoss`, same async-map shape as the
limit variant. -/
def dhanExitAllPositionsAddStopLoss (positions : List DhanPosition)
    (ltpOf : String → String → ℚ) (slPercentage : Option ℚ) : BulkReportAsync :=
  let pending : List (PendingItem (Option OrderParams)) := positions.map fun position =>
    .promiseItem (
      if position.quantity == 0 then none
      else some (dhanSLExitOrder ltpOf slPercentage position))
  let results := awaitAll (pending.filter pendingTruthy)
  { success := true
    message := "Added stop loss orders for " ++ toString results.length ++ " positions"
    details := results }

/-- `ZerodhaClient.exitAllPositionsLimit`, async-map shape with the
Zerodha sign convention. -/
def zerodhaExitAllPositionsLimit (positions : List ZPosition)
    (ltpOf : String → String → ℚ) (priceOffset : Option ℚ) : BulkReportAsync :=
  let pending : List (PendingItem (Option OrderParams)) := positions.map fun position =>
    .promiseItem (
      if position.quantity == 0 then none
      else some (zerodhaLimitExitOrder ltpOf priceOffset position))
  let results := awaitAll (pending.filter pendingTruthy)
  { success := true
    message := "Exited " ++ toString results.length ++ " positions with limit orders"
    details := results }

/-- An order row returned by the Dhan `/orders` endpoint. -/
structure DhanOrder where
  orderId : String
  status : String
deriving DecidableEq

/-- An order row returned by the Kite SDK for Zerodha. -/
structure ZOrder where
  order_id : String
  status : String
deriving DecidableEq

/-- The normalized result object produced by a successful `cancelOrder`. -/
structure CancelResult where
  orderId : String
  status : String
  message : String
deriving DecidableEq

/-- Aggregate returned by `cancelAllOrders` when no cancel rejected. -/
structure CancelAllReport where
  success : Bool
  message : String
  details : List CancelResult
deriving DecidableEq

/-- `Promise.all` over already-settled outcomes: resolves to the list of
values when every promise fulfils, and rejects as soon as any promise
rejects — no partial aggregate survives a rejection. -/
def promiseAll {ε α : Type} : List (Except ε α) → Except ε (List α)
  | [] => .ok []
  | .error e :: _ => .error e
  | .ok a :: rest =>
    match promiseAll rest with
    | .error e => .error e
    | .ok tl => .ok (a :: tl)

/-- The open-status filter of `DhanClient.cancelAllOrders`. -/
def dhanOpenOrders (orders : List DhanOrder) : List DhanOrder :=
  orders.filter fun order =>
    ["open", "pending", "trigger pending"].contains (jsToLower order.status)

/-- The open-status filter of `ZerodhaClient.cancelAllOrders`. -/
def zerodhaOpenOrders (orders : List ZOrder) : List ZOrder :=
  orders.filter fun order =>
    ["open", "pending", "trigger pending"].contains (jsToLower order.status)

/-- `DhanClient.cancelAllOrders` given the listed orders and the outcome of
each individual cancel call: filters to live statuses, fans out the
cancels through `Promise.all`, and wraps the results — or rethrows the
first rejection through the surrounding catch. -/
def dhanCancelAllOrders (orders : List DhanOrder)
    (cancel : String → Except String CancelResult) : Except String CancelAllReport :=
  let openOrders := dhanOpenOrders orders
  (promiseAll (openOrders.map fun order => cancel order.orderId)).map fun results =>
    { success := true
      message := "Cancelled " ++ toString results.length ++ " orders"
      details := results }

/-- `ZerodhaClient.cancelAllOrders`, same shape over `order_id`. -/
def zerodhaCancelAllOrders (orders : List ZOrder)
    (cancel : String → Except String CancelResult) : Except String CancelAllReport :=
  let openOrders := zerodhaOpenOrders orders
  (promiseAll (openOrders.map fun order => cancel order.order_id)).map fun results =>
    { success := true
      message := "Cancelled " ++ toString results.length ++ " orders"
      details := results }

/-- Environment of one `_loadInstrumentsCache` run: whether a persisted
cache file exists, whether it is younger than 24 hours, its parsed
contents, and the outcome of the live instrument download. -/
structure CacheEnv (α : Type) where
  fileExists : Bool
  fileFresh : Bool
  fileData : List α
  fetch : Except String (List α)

/-- `DhanClient._loadInstrumentsCache`: a fresh file is loaded directly; a
stale or missing file triggers a download, and a failed download falls
back to the persisted file when one exists. -/
def dhanLoadInstrumentsCache (env : CacheEnv DhanInstr) : Option (List DhanInstr) :=
  if env.fileExists && env.fileFresh then some env.fileData
  else
    match env.fetch with
    | .ok downloaded => some downloaded
    | .error _ => if env.fileExists then some env.fileData else none

/-- `UpstoxClient._loadInstrumentsCache`: the download is not guarded by an
inner try/catch, so a failed download propagates to the outer catch and
the in-memory cache stays unset even when a stale file is on disk. -/
def upstoxLoadInstrumentsCache (env : CacheEnv UInstr) : Option (List UInstr) :=
  if env.fileExists && env.fileFresh then some env.fileData
  else
    match env.fetch with
    | .ok downloaded => some downloaded
    | .error _ => none

/-- `ZerodhaClient._loadInstrumentsCache`, same shape as the Upstox one:
no fallback to the persisted file when `getInstruments` rejects. -/
def zerodhaLoadInstrumentsCache (env : CacheEnv ZInstr) : Option (List ZInstr) :=
  if env.fileExists && env.fileFresh then some env.fileData
  else
    match env.fetch with
    | .ok downloaded => some downloaded
    | .error _ => none

/-! Concrete inputs used by the example evaluations below. -/

/-- Example Dhan position with zero quantity. -/
def exDPos0 : DhanPosition := { securityId := "SEC0", exchange := "NSE", quantity := 0, product := "INTRADAY" }

/-- Example Dhan position long 10. -/
def exDPos1 : DhanPosition := { securityId := "SEC1", exchange := "NSE", quantity := 10, product := "INTRADAY" }

/-- Example Zerodha position long 10. -/
def exZPos1 : ZPosition := { tradingsymbol := "TCS", exchange := "NSE", quantity := 10, product := "MIS" }

/-- Example quote oracle answering 100 for every instrument. -/
def exLtp : String → String → ℚ := fun _ _ => 100

/-- Example offset parameter of one half percent. -/
def exHalf : Option ℚ := some (1/2)

/-- Example order book: three live orders, two settled ones. -/
def exOrders : List DhanOrder :=
  [{ orderId := "1", status := "open" }, { orderId := "2", status := "PENDING" },
   { orderId := "3", status := "trigger pending" }, { orderId := "4", status := "COMPLETE" },
   { orderId := "5", status := "REJECTED" }]

/-- Example order book with two live orders, used for the failing cancel. -/
def exOrdersBad : List DhanOrder :=
  [{ orderId := "1", status := "open" }, { orderId := "2", status := "open" }]

/-- Example cancel oracle where every cancel succeeds. -/
def exCancelOk : String → Except String CancelResult := fun orderId =>
  .ok { orderId := orderId, status := "success", message := "Order cancelled successfully" }

/-- Example cancel oracle where the cancel of order 1 is rejected. -/
def exCancelBad : String → Except String CancelResult := fun orderId =>
  if orderId == "1" then .error "cancel rejected"
  else .ok { orderId := orderId, status := "success", message := "Order cancelled successfully" }

/-- Example Dhan instrument with a lower-case symbol. -/
def exDhanInstr : DhanInstr :=
  { tradingSymbol := "reliance", securityId := "1333", exchangeToken := 500, exchange := "NSE" }

/-- Example Dhan catalog holding one lower-case symbol. -/
def exDhanCatalog : List DhanInstr := [exDhanInstr]

/-- Example Zerodha instrument with a lower-case symbol. -/
def exZInstr : ZInstr := { tradingsymbol := "abc", instrument_token := 1, exchange := "NSE" }

/-- Example Upstox instrument. -/
def exUInstr : UInstr :=
  { tradingsymbol := "INFY-EQ", instrument_token := "151064324",
    instrument_key := "NSE_EQ|INE009A01021", exchange := "NSE" }

/-- Example stale-file environment for Dhan whose download fails. -/
def exDEnv : CacheEnv DhanInstr :=
  { fileExists := true, fileFresh := false, fileData := exDhanCatalog,
    fetch := .error "getaddrinfo ENOTFOUND api.dhan.co" }

/-- Example stale-file environment for Upstox whose download fails. -/
def exUEnv : CacheEnv UInstr :=
  { fileExists := true, fileFresh := false, fileData := [exUInstr],
    fetch := .error "getaddrinfo ENOTFOUND assets.upstox.com" }

/-- Example stale-file environment for Zerodha whose download fails. -/
def exZEnv : CacheEnv ZInstr :=
  { fileExists := true, fileFresh := false, fileData := [exZInstr],
    fetch := .error "getaddrinfo ENOTFOUND api.kite.trade" }

/-- Example stop-loss order parameters with a supplied nonzero price. -/
def exSLParams : OrderParams :=
  { symbolName := some "INFY-EQ", transactionType := "SELL", orderType := "SL",
    quantity := 5, price := some 100, triggerPrice := some 99 }

/-- Example limit order parameters carrying explicit zero price fields. -/
def exZeroPriceParams : OrderParams :=
  { securityId := some "1333", exchange := some "NSE", transactionType := "BUY",
    orderType := "LIMIT", quantity := 1, price := some 0, triggerPrice := some 0 }

/-- Example limit order parameters with a supplied nonzero price, routed by
explicit security id. -/
def exLimitParams : OrderParams :=
  { securityId := some "1333", exchange := some "NSE", transactionType := "BUY",
    orderType := "LIMIT", quantity := 1, price := some 100, triggerPrice := some 99 }

/-- The Dhan request body built from `exLimitParams`. -/
def exLimitReq : DhanOrderRequest :=
  { securityId := "1333", exchange := some "NSE", quantity := 1,
    product := .str "INTRADAY", validity := "DAY", orderType := .str "LIMIT",
    transactionType := "BUY", disclosedQuantity := 0, source := "API",
    price := some 100, triggerPrice := none }

/-- The Dhan request body built from `exZeroPriceParams`: both price fields
are dropped by the truthiness guards. -/
def exZeroPriceReq : DhanOrderRequest :=
  { securityId := "1333", exchange := some "NSE", quantity := 1,
    product := .str "INTRADAY", validity := "DAY", orderType := .str "LIMIT",
    transactionType := "BUY", disclosedQuantity := 0, source := "API",
    price := none, triggerPrice := none }

/-- Placeholder Zerodha request used to instantiate unused hypotheses. -/
def dummyZReq : ZOrderRequest :=
  { exchange := "", tradingsymbol := "", transaction_type := "", quantity := 0,
    product := .jsUndefined, order_type := .jsUndefined, validity := "", variety := "",
    price := none, trigger_price := none }

/-- Placeholder Upstox request used to instantiate unused hypotheses. -/
def dummyUReq : UOrderRequest :=
  { instrument_token := "", exchange := "", transaction_type := "", order_type := "",
    quantity := 0, product := "", validity := "", price := none, trigger_price := none }

end TradeBridge

namespace TradeBridge

/-! Shared helper lemmas about the JS evaluation building blocks. -/

/-- A fulfilled outcome for every element makes `promiseAll` fulfil with one
value per element. -/
lemma promiseAll_ok_of_forall_ok {ε α : Type} (l : List (Except ε α))
    (h : ∀ x ∈ l, x.isOk = true) :
    ∃ ys, promiseAll l = .ok ys ∧ ys.length = l.length := by
  induction l with
  | nil => exact ⟨[], rfl, rfl⟩
  | cons hd tl ih =>
    obtain ⟨ys, hys, hlen⟩ := ih (fun x hx => h x (List.mem_cons_of_mem _ hx))
    have hhd := h hd (List.mem_cons_self hd tl)
    cases hd with
    | error e => simp [Except.isOk, Except.toBool] at hhd
    | ok a => exact ⟨a :: ys, by simp [promiseAll, hys], by simp [hlen]⟩

/-- A rejected outcome among the elements makes `promiseAll` reject. -/
lemma promiseAll_not_ok_of_mem_error {ε α : Type} (l : List (Except ε α))
    (x : Except ε α) (hx : x ∈ l) (hbad : x.isOk = false) :
    (promiseAll l).isOk = false := by
  induction l with
  | nil => cases hx
  | cons hd tl ih =>
    cases List.mem_cons.mp hx with
    | inl heq =>
      subst heq
      cases x with
      | error e => simp [promiseAll, Except.isOk, Except.toBool]
      | ok a => simp [Except.isOk, Except.toBool] at hbad
    | inr hmem =>
      cases hd with
      | error e => simp [promiseAll, Except.isOk, Except.toBool]
      | ok a =>
        have := ih hmem
        cases hrec : promiseAll tl with
        | error e => simp [promiseAll, hrec, Except.isOk, Except.toBool]
        | ok ys => simp [hrec, Except.isOk, Except.toBool] at this

/-- Mapping the fulfilled value does not change whether a promise rejected. -/
lemma isOk_except_map {ε α β : Type} (f : α → β) (e : Except ε α) :
    (e.map f).isOk = e.isOk := by
  cases e <;> rfl

/-- The async-map pipeline: every callback yields a promise, so the
truthiness filter keeps everything and the await unwraps each promise. -/
lemma awaitAll_filter_promise {α β : Type} (l : List β) (f : β → α) :
    awaitAll ((l.map fun b => PendingItem.promiseItem (f b)).filter pendingTruthy) =
      l.map f := by
  induction l with
  | nil => rfl
  | cons hd tl ih => simp [awaitAll, pendingTruthy, List.filter_cons] at ih ⊢; exact ih

/-- The sync-map pipeline: `null` results are dropped by the truthiness
filter, promises survive and are awaited. -/
lemma awaitAll_filter_ifNull {α β : Type} (l : List β) (c : β → Bool) (g : β → α) :
    awaitAll ((l.map fun b =>
        if c b then PendingItem.nullItem else PendingItem.promiseItem (g b)).filter
        pendingTruthy) =
      (l.filter fun b => !(c b)).map g := by
  induction l with
  | nil => rfl
  | cons hd tl ih =>
    cases h : c hd with
    | true => simpa [awaitAll, pendingTruthy, List.filter_cons, h] using ih
    | false => simpa [awaitAll, pendingTruthy, List.filter_cons, h] using ih

/-- Dictionary lookup misses every key that is not bound by the literal. -/
lemma lookup_eq_none_of_not_mem_keys (a : String) (l : List (String × String))
    (h : a ∉ l.map Prod.fst) : l.lookup a = none := by
  induction l with
  | nil => rfl
  | cons hd tl ih =>
    have hne : (a == hd.1) = false := by
      refine beq_eq_false_iff_ne.mpr fun heq => h ?_
      simp [List.map_cons, heq]
    have htl : a ∉ tl.map Prod.fst := fun hmem => h (List.mem_cons_of_mem _ hmem)
    simp [List.lookup, hne, ih htl]

/-- A member satisfying the predicate guarantees that `find?` finds some
element. -/
lemma find?_isSome_of_mem {α : Type} (p : α → Bool) (l : List α) (a : α)
    (ha : a ∈ l) (hp : p a = true) : ∃ b, l.find? p = some b := by
  induction l with
  | nil => cases ha
  | cons hd tl ih =>
    cases hhd : p hd with
    | true => exact ⟨hd, by simp [List.find?, hhd]⟩
    | false =>
      cases List.mem_cons.mp ha with
      | inl heq => rw [← heq] at hhd; rw [hp] at hhd; cases hhd
      | inr hmem =>
        obtain ⟨b, hb⟩ := ih hmem
        exact ⟨b, by simp [List.find?, hhd, hb]⟩

/-- Field characterization of a successful Dhan order build. -/
lemma dhanPlaceOrder_ok_fields (cache : Option (List DhanInstr))
    (params : OrderParams) (r : DhanOrderRequest)
    (h : dhanPlaceOrder cache params = .ok r) :
    r.price = (if ((params.orderType == "LIMIT") || (params.orderType == "SL")) &&
        jsTruthyNum params.price then params.price else none) ∧
    r.triggerPrice = (if ((dhanMapOrderType params.orderType == JsValue.str "SL") ||
        (dhanMapOrderType params.orderType == JsValue.str "SLM")) &&
        jsTruthyNum params.triggerPrice then params.triggerPrice else none) := by
  simp only [dhanPlaceOrder] at h
  split at h
  · exact Except.ok.inj h ▸ ⟨rfl, rfl⟩
  · split at h
    · cases h
    · cases h
    · exact Except.ok.inj h ▸ ⟨rfl, rfl⟩

/-- Field characterization of a successful Upstox order build. -/
lemma upstoxPlaceOrder_ok_fields (cache : Option (List UInstr))
    (params : OrderParams) (r : UOrderRequest)
    (h : upstoxPlaceOrder cache params = .ok r) :
    r.price = (if (params.orderType == "LIMIT") && jsTruthyNum params.price then
        params.price else none) ∧
    r.trigger_price = (if ((params.orderType == "SL") || (params.orderType == "SL-M")) &&
        jsTruthyNum params.triggerPrice then params.triggerPrice else none) := by
  simp only [upstoxPlaceOrder] at h
  split at h
  · cases h
  · cases h
  · exact Except.ok.inj h ▸ ⟨rfl, rfl⟩

/-- A mapped promise fulfils exactly when the underlying one does, with the
mapped value. -/
lemma except_map_ok {ε α β : Type} (f : α → β) (e : Except ε α) (r : β)
    (h : e.map f = .ok r) : ∃ v, e = .ok v ∧ r = f v := by
  cases e with
  | error e => cases h
  | ok v => exact ⟨v, rfl, (Except.ok.inj h).symm⟩

/-- Field characterization of a successful Zerodha order build. -/
lemma zerodhaPlaceOrder_ok_fields (cache : Option (List ZInstr))
    (params : OrderParams) (r : ZOrderRequest)
    (h : zerodhaPlaceOrder cache params = .ok r) :
    r.price = (if ((params.orderType == "LIMIT") || (params.orderType == "SL")) &&
        jsTruthyNum params.price then params.price else none) ∧
    r.trigger_price = (if ((params.orderType == "SL") || (params.orderType == "SL-M")) &&
        jsTruthyNum params.triggerPrice then params.triggerPrice else none) := by
  simp only [zerodhaPlaceOrder] at h
  obtain ⟨v, _, hr⟩ := except_map_ok _ _ _ h
  subst hr
  exact ⟨rfl, rfl⟩

/-- The truthiness-guarded optional field is present exactly when the guard
holds. -/
lemma isSome_truthy_guard (b : Bool) (v : Option ℚ) :
    (if b && jsTruthyNum v then v else none).isSome = (b && jsTruthyNum v) := by
  cases b <;> cases v <;> simp [jsTruthyNum]
  next q => by_cases hq : q = 0 <;> simp [hq]

/-- The Dhan order-type mapping lands in the stop-loss family exactly on the
two stop-loss inputs. -/
lemma dhanMapped_SL_iff (s : String) :
    ((dhanMapOrderType s == JsValue.str "SL") ||
      (dhanMapOrderType s == JsValue.str "SLM")) = true ↔
      (s = "SL" ∨ s = "SL-M") := by
  by_cases h1 : s = "MARKET"
  · subst h1; decide
  by_cases h2 : s = "LIMIT"
  · subst h2; decide
  by_cases h3 : s = "SL"
  · subst h3; decide
  by_cases h4 : s = "SL-M"
  · subst h4; decide
  have hnone : dhanOrderTypeMap.lookup s = none := by
    apply lookup_eq_none_of_not_mem_keys
    simp [dhanOrderTypeMap, h1, h2, h3, h4]
  by_cases hproto : s ∈ objectProtoKeys
  · simp [dhanMapOrderType, jsObjectGet, jsValueOr, jsValueTruthy, hnone, hproto,
      beq_iff_eq, h3, h4]
  · simp [dhanMapOrderType, jsObjectGet, jsValueOr, jsValueTruthy, hnone, hproto,
      beq_iff_eq, h3, h4]

/-! Claim theorems. -/

/-- Claim C4 (confirmed): for every position list, `exitAllPositions` submits
exactly one MARKET order per position with non-zero quantity — SELL for a
long position, BUY for a short one, with the absolute quantity and the
position's product — and zero-quantity positions produce no order; in
particular one zero-quantity plus one 10-quantity long position yield
exactly one MARKET SELL order for quantity 10. -/
theorem exitAllPositions_market_orders :
    (∀ positions : List DhanPosition,
      (dhanExitAllPositions positions).details =
        (positions.filter fun p => !(p.quantity == 0)).map dhanMarketExitOrder) ∧
    (∀ positions : List ZPosition,
      (zerodhaExitAllPositions positions).details =
        (positions.filter fun p => !(p.quantity == 0)).map zerodhaMarketExitOrder) ∧
    (dhanExitAllPositions [exDPos0, exDPos1]).details =
      [{ securityId := some "SEC1", exchange := some "NSE", transactionType := "SELL",
         orderType := "MARKET", quantity := 10, product := some "INTRADAY" }] ∧
    (zerodhaExitAllPositions [⟨"TCS", "NSE", 0, "MIS"⟩, exZPos1]).details =
      [{ symbolName := some "TCS", exchange := some "NSE", transactionType := "SELL",
         orderType := "MARKET", quantity := 10, product := some "MIS" }] := by
  refine ⟨fun positions => ?_, fun positions => ?_, by decide, by decide⟩
  · simpa [dhanExitAllPositions] using
      awaitAll_filter_ifNull positions (fun p => p.quantity == 0) dhanMarketExitOrder
  · simpa [zerodhaExitAllPositions] using
      awaitAll_filter_ifNull positions (fun p => p.quantity == 0) zerodhaMarketExitOrder

/-- Claim C3 (code bug): in the async exit variants the `filter(Boolean)`
runs on an array of promises, which are all truthy, so the `null` produced
for a zero-quantity position is NOT removed: the aggregate keeps a `null`
placeholder and the reported count includes the skipped position, while
the synchronous market exit on the same positions reports only one entry. -/
theorem exitVariants_null_leak_eval :
    (dhanExitAllPositionsLimit [exDPos0, exDPos1] exLtp exHalf).details.map Option.isSome =
      [false, true] ∧
    (dhanExitAllPositionsLimit [exDPos0, exDPos1] exLtp exHalf).message =
      "Exited 2 positions with limit orders" ∧
    (dhanExitAllPositionsAddStopLoss [exDPos0, exDPos1] exLtp (some 1)).details.map
        Option.isSome = [false, true] ∧
    (dhanExitAllPositionsAddStopLoss [exDPos0, exDPos1] exLtp (some 1)).message =
      "Added stop loss orders for 2 positions" ∧
    (dhanExitAllPositions [exDPos0, exDPos1]).details.length = 1 := by
  exact ⟨rfl, rfl, rfl, rfl, rfl⟩

/-- Claim C1 counterexample: with two open orders of which the first cancel
is rejected, `cancelAllOrders` rejects as a whole — no aggregate report
with one result per open order is returned. -/
theorem cancelAllOrders_failure_aborts_cex :
    dhanCancelAllOrders exOrdersBad exCancelBad = .error "cancel rejected" := by
  rfl

/-- Claim C1 (amended): `cancelAllOrders` cancels exactly the still-live
orders, and when every individual cancel succeeds the aggregate report
holds one result per open order; but a single rejected cancel makes the
whole call fail instead of being recorded in the aggregate. -/
theorem cancelAllOrders_amended :
    (∀ (orders : List DhanOrder) (cancel : String → Except String CancelResult),
      ((∀ o ∈ dhanOpenOrders orders, (cancel o.orderId).isOk = true) →
        ∃ rep, dhanCancelAllOrders orders cancel = .ok rep ∧
          rep.details.length = (dhanOpenOrders orders).length) ∧
      (∀ o ∈ dhanOpenOrders orders, (cancel o.orderId).isOk = false →
        (dhanCancelAllOrders orders cancel).isOk = false)) ∧
    (∀ (orders : List ZOrder) (cancel : String → Except String CancelResult),
      ((∀ o ∈ zerodhaOpenOrders orders, (cancel o.order_id).isOk = true) →
        ∃ rep, zerodhaCancelAllOrders orders cancel = .ok rep ∧
          rep.details.length = (zerodhaOpenOrders orders).length) ∧
      (∀ o ∈ zerodhaOpenOrders orders, (cancel o.order_id).isOk = false →
        (zerodhaCancelAllOrders orders cancel).isOk = false)) := by
  constructor
  · intro orders cancel
    constructor
    · intro hall
      obtain ⟨ys, hys, hlen⟩ := promiseAll_ok_of_forall_ok
        ((dhanOpenOrders orders).map fun o => cancel o.orderId)
        (by intro x hx; obtain ⟨o, ho, rfl⟩ := List.mem_map.mp hx; exact hall o ho)
      refine ⟨⟨true, "Cancelled " ++ toString ys.length ++ " orders", ys⟩, ?_, ?_⟩
      · simp [dhanCancelAllOrders, hys, Except.map]
      · simpa using hlen
    · intro o ho hbad
      have hmem : cancel o.orderId ∈ (dhanOpenOrders orders).map fun o => cancel o.orderId :=
        List.mem_map_of_mem _ ho
      have hnot := promiseAll_not_ok_of_mem_error _ _ hmem hbad
      simpa [dhanCancelAllOrders, isOk_except_map] using hnot
  · intro orders cancel
    constructor
    · intro hall
      obtain ⟨ys, hys, hlen⟩ := promiseAll_ok_of_forall_ok
        ((zerodhaOpenOrders orders).map fun o => cancel o.order_id)
        (by intro x hx; obtain ⟨o, ho, rfl⟩ := List.mem_map.mp hx; exact hall o ho)
      refine ⟨⟨true, "Cancelled " ++ toString ys.length ++ " orders", ys⟩, ?_, ?_⟩
      · simp [zerodhaCancelAllOrders, hys, Except.map]
      · simpa using hlen
    · intro o ho hbad
      have hmem : cancel o.order_id ∈ (zerodhaOpenOrders orders).map fun o => cancel o.order_id :=
        List.mem_map_of_mem _ ho
      have hnot := promiseAll_not_ok_of_mem_error _ _ hmem hbad
      simpa [zerodhaCancelAllOrders, isOk_except_map] using hnot

/-- Claim C1 amended witness: on a book of three live and two settled
orders with all cancels succeeding the batch fulfils, and with a rejecting
cancel on a live order the batch call rejects. -/
theorem cancelAllOrders_amended_witness :
    (dhanCancelAllOrders exOrders exCancelOk).isOk = true ∧
    (dhanCancelAllOrders exOrdersBad exCancelBad).isOk = false := by
  constructor
  · obtain ⟨rep, hrep, _⟩ := (cancelAllOrders_amended.1 exOrders exCancelOk).1 (by decide)
    simp [hrep, Except.isOk, Except.toBool]
  · exact (cancelAllOrders_amended.1 exOrdersBad exCancelBad).2
      { orderId := "1", status := "open" } (by decide) (by decide)

/-- Claim C2 counterexample: in the Zerodha adapter, a SELL exit at LTP 100
with offset 0.5 is priced at 99.50 — the order sits in the aggregate with
price `LTP × (1 − offset/100)`, not the claimed `LTP × (1 + offset/100)`
(which would be 100.50). -/
theorem exitLimit_sell_sign_cex :
    some (zerodhaLimitExitOrder exLtp exHalf exZPos1) ∈
      (zerodhaExitAllPositionsLimit [exZPos1] exLtp exHalf).details ∧
    (zerodhaLimitExitOrder exLtp exHalf exZPos1).price = some (199/2) ∧
    (zerodhaLimitExitOrder exLtp exHalf exZPos1).price ≠
      some (round2 (100 * (1 + (1/2) / 100))) := by
  refine ⟨List.mem_singleton.mpr rfl, ?_, ?_⟩
  · norm_num [zerodhaLimitExitOrder, exZPos1, exLtp, exHalf, jsNumOr, round2, jsRound]
  · norm_num [zerodhaLimitExitOrder, exZPos1, exLtp, exHalf, jsNumOr, round2, jsRound]

/-- Claim C2 (amended): for every position with positive quantity the exit
order placed by `exitAllPositionsLimit` is a SELL limit order whose price
is `round2 (LTP × (1 + offset/100))` — above LTP — in the Dhan adapter,
and `round2 (LTP × (1 − offset/100))` — below LTP — in the Zerodha
adapter. -/
theorem exitLimit_price_formula_amended :
    ∀ (dpos : List DhanPosition) (zpos : List ZPosition)
      (dltp zltp : String → String → ℚ) (offset : Option ℚ)
      (p : DhanPosition) (q : ZPosition),
      p ∈ dpos → 0 < p.quantity → q ∈ zpos → 0 < q.quantity →
      (some (dhanLimitExitOrder dltp offset p) ∈
          (dhanExitAllPositionsLimit dpos dltp offset).details ∧
        (dhanLimitExitOrder dltp offset p).transactionType = "SELL" ∧
        (dhanLimitExitOrder dltp offset p).price =
          some (round2 (dltp p.exchange p.securityId * (1 + jsNumOr offset 0 / 100)))) ∧
      (some (zerodhaLimitExitOrder zltp offset q) ∈
          (zerodhaExitAllPositionsLimit zpos zltp offset).details ∧
        (zerodhaLimitExitOrder zltp offset q).transactionType = "SELL" ∧
        (zerodhaLimitExitOrder zltp offset q).price =
          some (round2 (zltp q.exchange q.tradingsymbol * (1 - jsNumOr offset 0 / 100)))) := by
  intro dpos zpos dltp zltp offset p q hp hpq hq hqq
  have hpne : (p.quantity == 0) = false := beq_eq_false_iff_ne.mpr (by omega)
  have hqne : (q.quantity == 0) = false := beq_eq_false_iff_ne.mpr (by omega)
  refine ⟨⟨?_, ?_, ?_⟩, ⟨?_, ?_, ?_⟩⟩
  · have hdetails : (dhanExitAllPositionsLimit dpos dltp offset).details =
        dpos.map (fun position =>
          if position.quantity == 0 then none
          else some (dhanLimitExitOrder dltp offset position)) := by
      simpa [dhanExitAllPositionsLimit] using awaitAll_filter_promise dpos
        (fun position =>
          if position.quantity == 0 then none
          else some (dhanLimitExitOrder dltp offset position))
    rw [hdetails]
    have := List.mem_map_of_mem (fun position =>
      if position.quantity == 0 then none
      else some (dhanLimitExitOrder dltp offset position)) hp
    simpa [hpne] using this
  · simp [dhanLimitExitOrder, hpq]
  · simp [dhanLimitExitOrder, hpq]
  · have hdetails : (zerodhaExitAllPositionsLimit zpos zltp offset).details =
        zpos.map (fun position =>
          if position.quantity == 0 then none
          else some (zerodhaLimitExitOrder zltp offset position)) := by
      simpa [zerodhaExitAllPositionsLimit] using awaitAll_filter_promise zpos
        (fun position =>
          if position.quantity == 0 then none
          else some (zerodhaLimitExitOrder zltp offset position))
    rw [hdetails]
    have := List.mem_map_of_mem (fun position =>
      if position.quantity == 0 then none
      else some (zerodhaLimitExitOrder zltp offset position)) hq
    simpa [hqne] using this
  · simp [zerodhaLimitExitOrder, hqq]
  · simp [zerodhaLimitExitOrder, hqq]

/-- Claim C2 amended witness: at LTP 100 and offset 0.5 percent the Dhan
SELL exit is priced 100.50 and the Zerodha SELL exit 99.50. -/
theorem exitLimit_price_formula_witness :
    (dhanLimitExitOrder exLtp exHalf exDPos1).price = some (201/2) ∧
    (zerodhaLimitExitOrder exLtp exHalf exZPos1).price = some (199/2) := by
  obtain ⟨⟨_, _, hd⟩, _, _, hz⟩ :=
    exitLimit_price_formula_amended [exDPos1] [exZPos1] exLtp exLtp exHalf exDPos1 exZPos1
      (List.mem_singleton.mpr rfl) (by decide) (List.mem_singleton.mpr rfl) (by decide)
  constructor
  · rw [hd]; norm_num [exLtp, exDPos1, exHalf, jsNumOr, round2, jsRound]
  · rw [hz]; norm_num [exLtp, exZPos1, exHalf, jsNumOr, round2, jsRound]

/-- Claim C5 counterexample: the Zerodha lookup is case-sensitive — a
catalog holding the symbol `abc` yields no instrument for the upper-cased
key `ABC`, where the claim demands the instrument itself. -/
theorem zerodha_lookup_case_sensitive_cex :
    zerodhaGetInstrumentDetails (some [exZInstr]) (.str "ABC") = .ok none ∧
    exZInstr.tradingsymbol = "abc" ∧ jsToUpper exZInstr.tradingsymbol = "ABC" := by
  exact ⟨rfl, rfl, rfl⟩

/-- Claim C5 (amended): in the Dhan adapter a loaded catalog answers a
lookup by the exact trading symbol, by any case-variant of the symbol and
by the security id with some instrument; the Zerodha adapter answers a
string lookup only for the exact trading symbol, returning an instrument
bearing precisely that symbol. -/
theorem getInstrumentDetails_amended :
    ∀ (catalog : List DhanInstr) (i : DhanInstr) (key : String)
      (zcatalog : List ZInstr) (zi : ZInstr),
      i ∈ catalog → jsToUpper key = jsToUpper i.tradingSymbol → zi ∈ zcatalog →
      (∃ j, dhanGetInstrumentDetails (some catalog) (.str i.tradingSymbol) = .ok (some j)) ∧
      (∃ j, dhanGetInstrumentDetails (some catalog) (.str key) = .ok (some j)) ∧
      (∃ j, dhanGetInstrumentDetails (some catalog) (.str i.securityId) = .ok (some j)) ∧
      (∃ j, zerodhaGetInstrumentDetails (some zcatalog) (.str zi.tradingsymbol) = .ok (some j) ∧
        j.tradingsymbol = zi.tradingsymbol) := by
  intro catalog i key zcatalog zi hi hkey hzi
  refine ⟨?_, ?_, ?_, ?_⟩
  · obtain ⟨j, hj⟩ := find?_isSome_of_mem
      (fun instrument => (instrument.tradingSymbol == i.tradingSymbol) ||
        (jsToUpper instrument.tradingSymbol == jsToUpper i.tradingSymbol) ||
        (instrument.securityId == i.tradingSymbol)) catalog i hi (by simp)
    exact ⟨j, by simp [dhanGetInstrumentDetails, hj]⟩
  · obtain ⟨j, hj⟩ := find?_isSome_of_mem
      (fun instrument => (instrument.tradingSymbol == key) ||
        (jsToUpper instrument.tradingSymbol == jsToUpper key) ||
        (instrument.securityId == key)) catalog i hi (by simp [hkey])
    exact ⟨j, by simp [dhanGetInstrumentDetails, hj]⟩
  · obtain ⟨j, hj⟩ := find?_isSome_of_mem
      (fun instrument => (instrument.tradingSymbol == i.securityId) ||
        (jsToUpper instrument.tradingSymbol == jsToUpper i.securityId) ||
        (instrument.securityId == i.securityId)) catalog i hi (by simp)
    exact ⟨j, by simp [dhanGetInstrumentDetails, hj]⟩
  · obtain ⟨j, hj⟩ := find?_isSome_of_mem
      (fun instrument => instrument.tradingsymbol == zi.tradingsymbol) zcatalog zi hzi (by simp)
    refine ⟨j, by simp [zerodhaGetInstrumentDetails, hj], ?_⟩
    have := List.find?_some hj
    exact beq_iff_eq.mp this

/-- Claim C5 amended witness: the singleton Dhan catalog with symbol
`reliance` answers the keys `reliance`, `RELIANCE` and `1333`; the
singleton Zerodha catalog with symbol `abc` answers the key `abc`. -/
theorem getInstrumentDetails_amended_witness :
    ((dhanGetInstrumentDetails (some exDhanCatalog) (.str "reliance")).toOption.bind id).isSome =
      true ∧
    ((dhanGetInstrumentDetails (some exDhanCatalog) (.str "RELIANCE")).toOption.bind id).isSome =
      true ∧
    ((dhanGetInstrumentDetails (some exDhanCatalog) (.str "1333")).toOption.bind id).isSome =
      true ∧
    ((zerodhaGetInstrumentDetails (some [exZInstr]) (.str "abc")).toOption.bind id).isSome =
      true := by
  obtain ⟨⟨j1, h1⟩, ⟨j2, h2⟩, ⟨j3, h3⟩, ⟨j4, h4, _⟩⟩ :=
    getInstrumentDetails_amended exDhanCatalog exDhanInstr "RELIANCE" [exZInstr] exZInstr
      (List.mem_singleton.mpr rfl) (by decide) (List.mem_singleton.mpr rfl)
  have e1 : exDhanInstr.tradingSymbol = "reliance" := rfl
  have e2 : exDhanInstr.securityId = "1333" := rfl
  have e3 : exZInstr.tradingsymbol = "abc" := rfl
  rw [e1] at h1
  rw [e2] at h3
  rw [e3] at h4
  exact ⟨by rw [h1]; rfl, by rw [h2]; rfl, by rw [h3]; rfl, by rw [h4]; rfl⟩

/-- Claim C6 counterexample: with a stale persisted Upstox file on disk and
a failing live download, the Upstox loader leaves the in-memory catalog
unset instead of falling back to the stale file. -/
theorem upstox_no_stale_fallback_cex :
    upstoxLoadInstrumentsCache exUEnv = none ∧
    exUEnv.fileExists = true ∧ exUEnv.fileData = [exUInstr] := by
  exact ⟨rfl, rfl, rfl⟩

/-- Claim C6 (amended): when the live fetch fails and a stale persisted
file exists, only the Dhan loader falls back to the persisted data — and
lookups then succeed against it — while the Upstox and Zerodha loaders
leave the catalog unloaded. -/
theorem loadInstrumentsCache_fallback_amended :
    ∀ (denv : CacheEnv DhanInstr) (uenv : CacheEnv UInstr) (zenv : CacheEnv ZInstr)
      (e1 e2 e3 : String),
      denv.fileExists = true → denv.fileFresh = false → denv.fetch = .error e1 →
      uenv.fileExists = true → uenv.fileFresh = false → uenv.fetch = .error e2 →
      zenv.fileExists = true → zenv.fileFresh = false → zenv.fetch = .error e3 →
      dhanLoadInstrumentsCache denv = some denv.fileData ∧
      (∀ i ∈ denv.fileData, ∃ j,
        dhanGetInstrumentDetails (dhanLoadInstrumentsCache denv) (.str i.tradingSymbol) =
          .ok (some j)) ∧
      upstoxLoadInstrumentsCache uenv = none ∧
      zerodhaLoadInstrumentsCache zenv = none := by
  intro denv uenv zenv e1 e2 e3 hde hdf hdr hue huf hur hze hzf hzr
  have hd : dhanLoadInstrumentsCache denv = some denv.fileData := by
    simp [dhanLoadInstrumentsCache, hde, hdf, hdr]
  refine ⟨hd, ?_, ?_, ?_⟩
  · intro i hi
    obtain ⟨j, hj⟩ := find?_isSome_of_mem
      (fun instrument => (instrument.tradingSymbol == i.tradingSymbol) ||
        (jsToUpper instrument.tradingSymbol == jsToUpper i.tradingSymbol) ||
        (instrument.securityId == i.tradingSymbol)) denv.fileData i hi (by simp)
    exact ⟨j, by rw [hd]; simp [dhanGetInstrumentDetails, hj]⟩
  · simp [upstoxLoadInstrumentsCache, hue, huf, hur]
  · simp [zerodhaLoadInstrumentsCache, hze, hzf, hzr]

/-- Claim C6 amended witness: on the concrete stale-file environments with
failing downloads, the Dhan cache holds the stale catalog while the
Zerodha cache stays empty. -/
theorem loadInstrumentsCache_fallback_amended_witness :
    dhanLoadInstrumentsCache exDEnv = some exDhanCatalog ∧
    zerodhaLoadInstrumentsCache exZEnv = none := by
  have h := loadInstrumentsCache_fallback_amended exDEnv exUEnv exZEnv
    "getaddrinfo ENOTFOUND api.dhan.co" "getaddrinfo ENOTFOUND assets.upstox.com"
    "getaddrinfo ENOTFOUND api.kite.trade" rfl rfl rfl rfl rfl rfl rfl rfl rfl
  exact ⟨h.1, h.2.2.2⟩

/-- Claim C7 counterexample: the Upstox adapter omits the price field from
an SL order even though a nonzero price was supplied — the claim requires
the price field to be present for SL orders with a supplied price. -/
theorem upstox_sl_price_omitted_cex :
    (upstoxPlaceOrder (some [exUInstr]) exSLParams).toOption.map UOrderRequest.price =
      some none ∧
    (upstoxPlaceOrder (some [exUInstr]) exSLParams).toOption.map UOrderRequest.trigger_price =
      some (some 99) ∧
    exSLParams.orderType = "SL" ∧ exSLParams.price = some 100 := by
  exact ⟨rfl, rfl, rfl, rfl⟩

/-- Claim C7 (amended): in every built request the trigger-price field is
present exactly when the order type is SL or SL-M and a truthy trigger
price was supplied, and the price field is present exactly when a truthy
price was supplied on a LIMIT or SL order for Dhan and Zerodha — but only
on a LIMIT order for Upstox. -/
theorem placeOrder_price_trigger_fields_amended :
    ∀ (dcache : Option (List DhanInstr)) (zcache : Option (List ZInstr))
      (ucache : Option (List UInstr)) (p1 p2 p3 : OrderParams)
      (r1 : DhanOrderRequest) (r2 : ZOrderRequest) (r3 : UOrderRequest),
      (dhanPlaceOrder dcache p1 = .ok r1 →
        (r1.price.isSome ↔ (p1.orderType = "LIMIT" ∨ p1.orderType = "SL") ∧
          jsTruthyNum p1.price = true) ∧
        (r1.triggerPrice.isSome ↔ (p1.orderType = "SL" ∨ p1.orderType = "SL-M") ∧
          jsTruthyNum p1.triggerPrice = true)) ∧
      (zerodhaPlaceOrder zcache p2 = .ok r2 →
        (r2.price.isSome ↔ (p2.orderType = "LIMIT" ∨ p2.orderType = "SL") ∧
          jsTruthyNum p2.price = true) ∧
        (r2.trigger_price.isSome ↔ (p2.orderType = "SL" ∨ p2.orderType = "SL-M") ∧
          jsTruthyNum p2.triggerPrice = true)) ∧
      (upstoxPlaceOrder ucache p3 = .ok r3 →
        (r3.price.isSome ↔ p3.orderType = "LIMIT" ∧ jsTruthyNum p3.price = true) ∧
        (r3.trigger_price.isSome ↔ (p3.orderType = "SL" ∨ p3.orderType = "SL-M") ∧
          jsTruthyNum p3.triggerPrice = true)) := by
  intro dcache zcache ucache p1 p2 p3 r1 r2 r3
  refine ⟨fun h => ?_, fun h => ?_, fun h => ?_⟩
  · obtain ⟨hp, ht⟩ := dhanPlaceOrder_ok_fields _ _ _ h
    constructor
    · rw [hp, isSome_truthy_guard]
      simp [Bool.and_eq_true, Bool.or_eq_true, beq_iff_eq]
    · rw [ht, isSome_truthy_guard, Bool.and_eq_true]
      constructor
      · rintro ⟨hb, hv⟩; exact ⟨(dhanMapped_SL_iff _).mp hb, hv⟩
      · rintro ⟨hb, hv⟩; exact ⟨(dhanMapped_SL_iff _).mpr hb, hv⟩
  · obtain ⟨hp, ht⟩ := zerodhaPlaceOrder_ok_fields _ _ _ h
    constructor
    · rw [hp, isSome_truthy_guard]
      simp [Bool.and_eq_true, Bool.or_eq_true, beq_iff_eq]
    · rw [ht, isSome_truthy_guard]
      simp [Bool.and_eq_true, Bool.or_eq_true, beq_iff_eq]
  · obtain ⟨hp, ht⟩ := upstoxPlaceOrder_ok_fields _ _ _ h
    constructor
    · rw [hp, isSome_truthy_guard]
      simp [Bool.and_eq_true, beq_iff_eq]
    · rw [ht, isSome_truthy_guard]
      simp [Bool.and_eq_true, Bool.or_eq_true, beq_iff_eq]

/-- Claim C7 amended witness: a Dhan LIMIT order with a supplied price of
100 carries the price field and no trigger-price field. -/
theorem placeOrder_price_trigger_fields_amended_witness :
    exLimitReq.price.isSome = true ∧ exLimitReq.triggerPrice.isSome = false := by
  have h := (placeOrder_price_trigger_fields_amended none none none exLimitParams
    exLimitParams exLimitParams exLimitReq dummyZReq dummyUReq).1 rfl
  constructor
  · exact h.1.mpr ⟨Or.inl rfl, rfl⟩
  · cases hb : exLimitReq.triggerPrice.isSome with
    | false => rfl
    | true => exact absurd (h.2.mp hb).1 (by decide)

/-- Claim C8 counterexample: the mapping dictionaries are read with a plain
JS property access, so a key naming an inherited `Object.prototype`
member — `toString`, `valueOf`, `hasOwnProperty`, `constructor`, … — finds
the truthy inherited member, and the `||` default never applies: the
unrecognized input is NOT coerced to the documented default. -/
theorem mapping_proto_key_cex :
    dhanMapProduct "toString" = .protoFn "toString" ∧
    dhanMapProduct "toString" ≠ .str "INTRADAY" ∧
    jsValueTruthy (dhanMapProduct "toString") = true ∧
    dhanMapOrderType "valueOf" = .protoFn "valueOf" ∧
    zerodhaMapProduct "hasOwnProperty" = .protoFn "hasOwnProperty" ∧
    zerodhaMapOrderType "constructor" ≠ .str "MARKET" := by
  exact ⟨rfl, by decide, rfl, rfl, rfl, by decide⟩

/-- Claim C8 (amended): the product and order-type mapping functions of
Dhan and Zerodha are total and never fail; every key listed in the
dictionary maps to its broker-native value, and an unrecognized input
maps to the INTRADAY-class product or MARKET order-type default — unless
it names an inherited `Object.prototype` member, in which case the truthy
inherited member is returned instead of the default. -/
theorem mapping_default_amended :
    (∀ s, s ∉ dhanProductMap.map Prod.fst → s ∉ objectProtoKeys →
      dhanMapProduct s = .str "INTRADAY") ∧
    (∀ s, s ∉ dhanProductMap.map Prod.fst → s ∈ objectProtoKeys →
      dhanMapProduct s = .protoFn s) ∧
    (∀ s, s ∉ dhanOrderTypeMap.map Prod.fst → s ∉ objectProtoKeys →
      dhanMapOrderType s = .str "MARKET") ∧
    (∀ s, s ∉ dhanOrderTypeMap.map Prod.fst → s ∈ objectProtoKeys →
      dhanMapOrderType s = .protoFn s) ∧
    (∀ s, s ∉ zerodhaProductMap.map Prod.fst → s ∉ objectProtoKeys →
      zerodhaMapProduct s = .str "MIS") ∧
    (∀ s, s ∉ zerodhaProductMap.map Prod.fst → s ∈ objectProtoKeys →
      zerodhaMapProduct s = .protoFn s) ∧
    (∀ s, s ∉ zerodhaOrderTypeMap.map Prod.fst → s ∉ objectProtoKeys →
      zerodhaMapOrderType s = .str "MARKET") ∧
    (∀ s, s ∉ zerodhaOrderTypeMap.map Prod.fst → s ∈ objectProtoKeys →
      zerodhaMapOrderType s = .protoFn s) ∧
    dhanMapProduct "INTRADAY" = .str "INTRADAY" ∧
    dhanMapProduct "MIS" = .str "INTRADAY" ∧
    dhanMapProduct "CNC" = .str "DELIVERY" ∧
    dhanMapProduct "NRML" = .str "NORMAL" ∧
    dhanMapOrderType "SL-M" = .str "SLM" ∧
    dhanMapOrderType "LIMIT" = .str "LIMIT" ∧
    zerodhaMapProduct "INTRADAY" = .str "MIS" ∧
    zerodhaMapProduct "DELIVERY" = .str "CNC" ∧
    zerodhaMapOrderType "SL-M" = .str "SL-M" ∧
    zerodhaMapOrderType "MARKET" = .str "MARKET" := by
  refine ⟨?_, ?_, ?_, ?_, ?_, ?_, ?_, ?_,
    rfl, rfl, rfl, rfl, rfl, rfl, rfl, rfl, rfl, rfl⟩
  · intro s hkeys hproto
    simp [dhanMapProduct, jsObjectGet, jsValueOr, jsValueTruthy,
      lookup_eq_none_of_not_mem_keys s dhanProductMap hkeys, hproto]
  · intro s hkeys hproto
    simp [dhanMapProduct, jsObjectGet, jsValueOr, jsValueTruthy,
      lookup_eq_none_of_not_mem_keys s dhanProductMap hkeys, hproto]
  · intro s hkeys hproto
    simp [dhanMapOrderType, jsObjectGet, jsValueOr, jsValueTruthy,
      lookup_eq_none_of_not_mem_keys s dhanOrderTypeMap hkeys, hproto]
  · intro s hkeys hproto
    simp [dhanMapOrderType, jsObjectGet, jsValueOr, jsValueTruthy,
      lookup_eq_none_of_not_mem_keys s dhanOrderTypeMap hkeys, hproto]
  · intro s hkeys hproto
    simp [zerodhaMapProduct, jsObjectGet, jsValueOr, jsValueTruthy,
      lookup_eq_none_of_not_mem_keys s zerodhaProductMap hkeys, hproto]
  · intro s hkeys hproto
    simp [zerodhaMapProduct, jsObjectGet, jsValueOr, jsValueTruthy,
      lookup_eq_none_of_not_mem_keys s zerodhaProductMap hkeys, hproto]
  · intro s hkeys hproto
    simp [zerodhaMapOrderType, jsObjectGet, jsValueOr, jsValueTruthy,
      lookup_eq_none_of_not_mem_keys s zerodhaOrderTypeMap hkeys, hproto]
  · intro s hkeys hproto
    simp [zerodhaMapOrderType, jsObjectGet, jsValueOr, jsValueTruthy,
      lookup_eq_none_of_not_mem_keys s zerodhaOrderTypeMap hkeys, hproto]

/-- Claim C8 amended witness: the unlisted inputs `BRACKET` and `ICEBERG`
are coerced to each dictionary default, while the prototype keys
`__proto__` and `toLocaleString` yield the inherited member. -/
theorem mapping_default_amended_witness :
    dhanMapProduct "BRACKET" = .str "INTRADAY" ∧
    dhanMapProduct "__proto__" = .protoFn "__proto__" ∧
    dhanMapOrderType "ICEBERG" = .str "MARKET" ∧
    dhanMapOrderType "toLocaleString" = .protoFn "toLocaleString" ∧
    zerodhaMapProduct "BRACKET" = .str "MIS" ∧
    zerodhaMapOrderType "ICEBERG" = .str "MARKET" := by
  exact ⟨mapping_default_amended.1 "BRACKET" (by decide) (by decide),
    mapping_default_amended.2.1 "__proto__" (by decide) (by decide),
    mapping_default_amended.2.2.1 "ICEBERG" (by decide) (by decide),
    mapping_default_amended.2.2.2.1 "toLocaleString" (by decide) (by decide),
    mapping_default_amended.2.2.2.2.1 "BRACKET" (by decide) (by decide),
    mapping_default_amended.2.2.2.2.2.2.1 "ICEBERG" (by decide) (by decide)⟩

/-- Claim C9 (confirmed over exact rational arithmetic): the shared
`Math.round(p*100)/100` step produces an integer number of cents — exactly
two decimal places — equal to the half-up rounding of the exact cent
value, with the boundary 100.005 rounding to 100.01; the stop-loss exit
variant stores exactly such a rounded value. -/
theorem round2_half_up_two_decimals :
    (∀ q : ℚ, round2 q * 100 = ((jsRound (q * 100) : ℤ) : ℚ) ∧
      ((jsRound (q * 100) : ℤ) : ℚ) - 1/2 ≤ q * 100 ∧
      q * 100 < ((jsRound (q * 100) : ℤ) : ℚ) + 1/2) ∧
    round2 (20001/200) = 10001/100 ∧
    (dhanSLExitOrder exLtp (some 1) exDPos1).triggerPrice = some 99 := by
  refine ⟨fun q => ⟨?_, ?_, ?_⟩, ?_, ?_⟩
  · rw [round2]; field_simp
  · simp only [jsRound]; linarith [Int.floor_le (q * 100 + 1/2)]
  · simp only [jsRound]; linarith [Int.lt_floor_add_one (q * 100 + 1/2)]
  · norm_num [round2, jsRound]
  · norm_num [dhanSLExitOrder, exLtp, exDPos1, jsNumOr, round2, jsRound]

/-- Claim C10 (confirmed): every adapter's price and trigger-price guards
test JS truthiness, so a supplied value of 0 is treated exactly like an
absent one — the built request carries no such field. -/
theorem zero_price_treated_absent :
    ∀ (dcache : Option (List DhanInstr)) (zcache : Option (List ZInstr))
      (ucache : Option (List UInstr)) (params : OrderParams)
      (r1 : DhanOrderRequest) (r2 : ZOrderRequest) (r3 : UOrderRequest),
      params.price = some 0 → params.triggerPrice = some 0 →
      (dhanPlaceOrder dcache params = .ok r1 → r1.price = none ∧ r1.triggerPrice = none) ∧
      (zerodhaPlaceOrder zcache params = .ok r2 →
        r2.price = none ∧ r2.trigger_price = none) ∧
      (upstoxPlaceOrder ucache params = .ok r3 →
        r3.price = none ∧ r3.trigger_price = none) := by
  intro dcache zcache ucache params r1 r2 r3 hp ht
  have hzp : jsTruthyNum params.price = false := by simp [hp, jsTruthyNum]
  have hzt : jsTruthyNum params.triggerPrice = false := by simp [ht, jsTruthyNum]
  refine ⟨fun h => ?_, fun h => ?_, fun h => ?_⟩
  · obtain ⟨h1, h2⟩ := dhanPlaceOrder_ok_fields _ _ _ h
    rw [h1, h2]; simp [hzp, hzt]
  · obtain ⟨h1, h2⟩ := zerodhaPlaceOrder_ok_fields _ _ _ h
    rw [h1, h2]; simp [hzp, hzt]
  · obtain ⟨h1, h2⟩ := upstoxPlaceOrder_ok_fields _ _ _ h
    rw [h1, h2]; simp [hzp, hzt]

/-- Claim C10 witness: a Dhan LIMIT order supplied with price 0 and trigger
price 0 is built without either field. -/
theorem zero_price_treated_absent_witness :
    (dhanPlaceOrder none exZeroPriceParams).toOption.map DhanOrderRequest.price =
      some none ∧
    (dhanPlaceOrder none exZeroPriceParams).toOption.map DhanOrderRequest.triggerPrice =
      some none := by
  have h := (zero_price_treated_absent none none none exZeroPriceParams exZeroPriceReq
    dummyZReq dummyUReq rfl rfl).1 rfl
  have hreq : dhanPlaceOrder none exZeroPriceParams = .ok exZeroPriceReq := rfl
  rw [hreq]
  exact ⟨by simp [Except.toOption, h.1], by simp [Except.toOption, h.2]⟩

end TradeBridge
